import Mathlib

/-!
Verification of the cloud-chatops PR-reminder pipeline.

The data model and operations below are shallow embeddings of the Python
sources: `src/events.py`, `src/errors.py`, `src/read_data.py`, `src/main.py`
and the modules they exercise.  The modules `features/pr_reminder.py`
(`PRReminder`), `pr_dataclass.py` (`PR`, `Message`) and `find_pr_api/github.py`
(`FindPRs`) are not part of the source tree here (only their tests and callers
are), so those definitions are modelled from the specification, as marked in
their doc comments.
-/

/-- One pull request record, after `pr_dataclass.py` / spec section 3: title,
author (source-hosting username), url, stale and draft flags, labels,
repository, and creation timestamp (modelled as seconds since epoch). -/
structure PR where
  title : String
  author : String
  url : String
  stale : Bool
  draft : Bool
  labels : List String
  repository : String
  created_at : Nat
deriving Repr, DecidableEq

/-- One chat message to post: text plus an ordered list of reaction names. -/
structure Message where
  text : String
  reactions : List String
deriving Repr, DecidableEq

/-- Response of a chat API call: the `ok` flag, the upstream `error` string
(meaningful when `ok` is false), and the `ts`/`channel` identifiers of the
posted message (meaningful when `ok` is true). -/
structure ChatResponse where
  ok : Bool
  error : String
  ts : String
  channel : String
deriving Repr, DecidableEq

/-- The chat client, modelled as response oracles for the three API calls the
reminder uses: `chat_postMessage` (text, channel, optional thread timestamp;
`unfurl_links` is always false so it is not a parameter of the oracle),
`reactions_add` (channel, name, timestamp), and `users_profile_get`
(returns the profile real name, or `none` when the call fails). -/
structure Client where
  postMessage : String → String → Option String → ChatResponse
  reactionsAdd : String → String → String → ChatResponse
  profileRealName : String → Option String

/-- A chat API side effect, recorded in the order it is issued. -/
inductive ChatCall where
  | post (text channel : String) (unfurl : Bool) (threadTs : Option String)
  | react (channel name timestamp : String)
deriving Repr, DecidableEq

/-- Modelled from the spec: `PRReminder.get_reactions` of
`features/pr_reminder.py` is not in the source tree.  Spec section 4.2: if
`pr.stale` add `"alarm_clock"`; if `pr.draft` add `"building_construction"`;
order is stale-then-draft; empty if neither applies. -/
def get_reactions (pr : PR) : List String :=
  (if pr.stale then ["alarm_clock"] else [])
    ++ (if pr.draft then ["building_construction"] else [])

/-- Lookup of a source-hosting username in the configured user map
(`get_config("user-map")`), returning the chat identifier when present. -/
def lookupUser (userMap : List (String × String)) (gh : String) : Option String :=
  (userMap.find? (fun p => p.fst == gh)).map (fun p => p.snd)

/-- The display name used on the `Author:` line: resolve the author through
the user map, then through the chat profile API; fall back to the raw
source-hosting username when either step fails. -/
def resolveAuthor (c : Client) (userMap : List (String × String)) (author : String) : String :=
  match lookupUser userMap author with
  | none => author
  | some sid =>
    match c.profileRealName sid with
    | none => author
    | some realName => realName

/-- Modelled from the spec: `PRReminder.make_string` of
`features/pr_reminder.py` is not in the source tree.  Spec section 4.2: for a
stale PR the text is the staleness preamble, the `<url|title>` hyperlink line
and the `Author:` line; the author is resolved through the user map and the
chat profile API with fallback to the raw username.  For a non-stale PR the
spec leaves the exact template open; the preamble line is simply omitted. -/
def make_string (c : Client) (userMap : List (String × String)) (pr : PR) : String :=
  let name :=
    match lookupUser userMap pr.author with
    | none => pr.author
    | some sid =>
      match c.profileRealName sid with
      | none => pr.author
      | some realName => realName
  (if pr.stale then "*This PR is older than 30 days. Consider closing it:*\n" else "")
    ++ "Pull Request: <" ++ pr.url ++ "|" ++ pr.title ++ ">\nAuthor: " ++ name

/-- Modelled from the spec: `PRReminder.construct_messages` of
`features/pr_reminder.py` is not in the source tree.  One (text, reactions)
pair per PR, preserving input order (spec section 4.2, `composeAll`). -/
def construct_messages (c : Client) (userMap : List (String × String)) (prs : List PR) : List Message :=
  prs.map (fun pr => ⟨make_string c userMap pr, get_reactions pr⟩)

/-- Modelled from the spec: `PRReminder.add_reactions` of
`features/pr_reminder.py` is not in the source tree.  Spec section 4.3: each
reaction add is independent; a failing call must not abort the remaining
calls.  The result is the list of issued calls together with the error texts
of the failed calls. -/
def add_reactions (c : Client) (timestamp channel : String) (reactions : List String) :
    List ChatCall × List String :=
  match reactions with
  | [] => ([], [])
  | r :: rest =>
    let resp := c.reactionsAdd channel r timestamp
    let tail := add_reactions c timestamp channel rest
    (ChatCall.react channel r timestamp :: tail.1,
      (if resp.ok then [] else ["Reaction failed to add with error: " ++ resp.error]) ++ tail.2)

/-- Modelled from the spec: `PRReminder.send_message` of
`features/pr_reminder.py` is not in the source tree.  Post one message with
`unfurl_links=false` and the given optional thread timestamp; when the API
answers `ok: false`, fail with an error carrying the upstream error string;
on success issue the reaction-add calls against the returned ts/channel. -/
def send_message (c : Client) (text channel : String) (reactions : List String)
    (timestamp : Option String) : List ChatCall × Except String ChatResponse :=
  let resp := c.postMessage text channel timestamp
  if resp.ok then
    (ChatCall.post text channel false timestamp
        :: (add_reactions c resp.ts resp.channel reactions).1,
      Except.ok resp)
  else
    ([ChatCall.post text channel false timestamp],
      Except.error ("Message failed to send with error: " ++ resp.error))

/-- Threaded replies for the composed messages, in order; a failed post stops
the run with its error, and the successful trace is concatenated. -/
def send_messages (c : Client) (msgs : List Message) (channel ts : String) :
    List ChatCall × Except String Unit :=
  match msgs with
  | [] => ([], Except.ok ())
  | m :: rest =>
    let sm := send_message c m.text channel m.reactions (some ts)
    match sm.2 with
    | Except.error e => (sm.1, Except.error e)
    | Except.ok _ =>
      (sm.1 ++ (send_messages c rest channel ts).1, (send_messages c rest channel ts).2)

/-- Modelled from the spec: `PRReminder.run` of `features/pr_reminder.py` is
not in the source tree.  Spec section 4.3: with no PRs and the announce flag
set, post the single "No Pull Requests were found." message and stop; with no
PRs and the flag clear, post nothing; otherwise post the header message and
then one threaded reply per composed message, threading on the header's
returned timestamp. -/
def PRReminder.run (c : Client) (userMap : List (String × String)) (prs : List PR)
    (channel : String) (message_no_prs : Bool) : List ChatCall × Except String Unit :=
  if prs.isEmpty then
    if message_no_prs then
      let sm := send_message c "No Pull Requests were found." channel [] none
      (sm.1, sm.2.map (fun _ => ()))
    else ([], Except.ok ())
  else
    let header := send_message c "Here are the outstanding PRs as of today:" channel [] none
    match header.2 with
    | Except.error e => (header.1, Except.error e)
    | Except.ok resp =>
      let tail := send_messages c (construct_messages c userMap prs) channel resp.ts
      (header.1 ++ tail.1, tail.2)

/-- Modelled from the spec: `FindPRs.sort_by` of `find_pr_api/github.py` is
not in the source tree.  Spec section 4.1: a pure, stable sort of the PR list
on the named field; the boolean argument is the reverse flag of the
underlying sort (false = ascending), consistent with spec section 4.4 which
states that global mode sorts by creation date ascending (oldest first)
while `run_global_reminder` passes `False`. -/
def FindPRs.sort_by (prs : List PR) (field : String) (reverse : Bool) : List PR :=
  if field = "created_at" then
    if reverse then
      prs.mergeSort (fun a b => b.created_at ≤ a.created_at)
    else
      prs.mergeSort (fun a b => a.created_at ≤ b.created_at)
  else prs

/-- Modelled from the spec: `FindPRs.filter_by` of `find_pr_api/github.py` is
not in the source tree.  Spec section 4.1/8: filtering by author returns
exactly the subset with that author, preserving relative order. -/
def FindPRs.filter_by (prs : List PR) (field : String) (value : String) : List PR :=
  if field = "author" then prs.filter (fun pr => pr.author == value) else prs

/-- The PR list `run_global_reminder` (src/events.py) passes to the
dispatcher: the fetch result of all configured repositories, sorted by
creation date with reverse = false.  The fetch itself
(`FindPRs().run(repos=...)`) is an external API call, modelled as an
oracle from the repository list to the aggregated PR list. -/
def global_reminder_prs (fetch : List String → List PR) (repos : List String) : List PR :=
  FindPRs.sort_by (fetch repos) "created_at" false

/-- Embedding of `run_global_reminder` (src/events.py): fetch the PRs of all
configured repositories, sort them by creation date, and run the reminder
dispatcher on the shared channel (announce flag left at its default, true). -/
def run_global_reminder (fetch : List String → List PR) (repos : List String) (c : Client)
    (userMap : List (String × String)) (channel : String) :
    List ChatCall × Except String Unit :=
  PRReminder.run c userMap (global_reminder_prs fetch repos) channel true

/-- A configured user, after `helper/data.py` (not in the source tree;
modelled from the spec's username-to-chat-identity mapping): the
source-hosting username and the chat user identifier. -/
structure User where
  github_name : String
  slack_id : String
deriving Repr, DecidableEq

/-- One observable action of the slash-command handler: a `respond` call back
to the invoker, or the launch of one of the two reminder operations
(`run_personal_reminder` with the selected users and announce flag, or
`run_global_reminder` with the target channel). -/
inductive BotAction where
  | respond (msg : String)
  | personalReminder (users : List User) (message_no_prs : Bool)
  | globalReminder (channel : String)
deriving Repr, DecidableEq

/-- Embedding of `slash_prs` (src/events.py): acknowledge, reject an invoking
user that is not in the configured user map, then dispatch on the command
text: "mine" runs the personal reminder for the invoking user with
`message_no_prs = true`, "all" runs the global reminder with the invoker's id
as the channel, anything else yields only the usage message. -/
def slash_prs (users : List User) (user_id text : String) : List BotAction :=
  if user_id ∈ users.map (fun u => u.slack_id) then
    if text = "mine" then
      [BotAction.respond "Gathering the PRs...",
        BotAction.personalReminder (users.filter (fun u => u.slack_id == user_id)) true,
        BotAction.respond "Check out your DMs."]
    else if text = "all" then
      [BotAction.respond "Gathering the PRs...",
        BotAction.globalReminder user_id,
        BotAction.respond "Check out your DMs."]
    else
      [BotAction.respond "Please provide the correct argument: 'mine' or 'all'."]
  else
    [BotAction.respond ("Could not find your Slack ID " ++ user_id
      ++ " in the user map. Please contact the service maintainer to fix this.")]

/-- One raw user entry of config.yml, consumed by `User.from_config`. -/
structure RawUserEntry where
  github_name : String
  slack_id : String
deriving Repr, DecidableEq

/-- Modelled from the spec: `User.from_config` of `helper/data.py` is not in
the source tree.  It builds a `User` from one raw config entry of the
username-to-chat-identity mapping. -/
def User.from_config (e : RawUserEntry) : User :=
  ⟨e.github_name, e.slack_id⟩

/-- The parsed config.yml, as the dictionary `read_data.get_config` reads:
each key is absent (`none`) or present with its raw value. -/
structure ConfigFile where
  users : Option (List RawUserEntry)
  repos : Option (List String)
  channel : Option String
deriving Repr, DecidableEq

/-- The value `get_config` returns for a section. -/
inductive ConfigValue where
  | users (us : List User)
  | repos (rs : List String)
  | channel (c : String)
deriving Repr, DecidableEq

/-- An error raised while reading or validating configuration: a Python
`KeyError` (missing dictionary key or unknown section) or the
`ErrorInConfig` raised by `validate_required_files`. -/
inductive ConfigError where
  | keyError (msg : String)
  | errorInConfig (msg : String)
deriving Repr, DecidableEq

/-- Python truthiness of a config value, as used by the `if not ...` checks
in `validate_required_files`: an empty list or empty string is falsy. -/
def ConfigValue.isFalsy : ConfigValue → Bool
  | ConfigValue.users us => us.isEmpty
  | ConfigValue.repos rs => rs.isEmpty
  | ConfigValue.channel c => c == ""

/-- Embedding of `get_config` (src/read_data.py): sections "users", "repos"
and "channel" return the configured data ("users" mapped through
`User.from_config`, the other two unchanged); any other section name raises
`KeyError("No section in config named {section}.")`.  An absent key raises
the dictionary `KeyError` of `config_data[section]`. -/
def get_config (cfg : ConfigFile) (sect : String) : Except ConfigError ConfigValue :=
  if sect = "users" then
    match cfg.users with
    | some raw => Except.ok (ConfigValue.users (raw.map User.from_config))
    | none => Except.error (ConfigError.keyError "users")
  else if sect = "repos" then
    match cfg.repos with
    | some rs => Except.ok (ConfigValue.repos rs)
    | none => Except.error (ConfigError.keyError "repos")
  else if sect = "channel" then
    match cfg.channel with
    | some ch => Except.ok (ConfigValue.channel ch)
    | none => Except.error (ConfigError.keyError "channel")
  else
    Except.error (ConfigError.keyError ("No section in config named " ++ sect ++ "."))

/-- Embedding of `get_token` (src/read_data.py): look the secret up in
secrets.yml; an absent key raises the dictionary `KeyError`. -/
def get_token (secrets : String → Option String) (secret : String) : Except ConfigError String :=
  match secrets secret with
  | some v => Except.ok v
  | none => Except.error (ConfigError.keyError secret)

/-- One token check of `validate_required_files`: the secret must exist and
be non-empty, else `ErrorInConfig` is raised. -/
def validate_token (secrets : String → Option String) (t : String) : Except ConfigError Unit :=
  match get_token secrets t with
  | Except.error e => Except.error e
  | Except.ok v =>
    if v = "" then
      Except.error (ConfigError.errorInConfig ("Token " ++ t ++ " does not have a value in secrets.yml."))
    else Except.ok ()

/-- One config-section check of `validate_required_files`: read the section
through `get_config` and raise `ErrorInConfig` with the given message when
the value is falsy. -/
def validate_config_section (cfg : ConfigFile) (sect msg : String) : Except ConfigError Unit :=
  match get_config cfg sect with
  | Except.error e => Except.error e
  | Except.ok v =>
    if v.isFalsy then Except.error (ConfigError.errorInConfig msg) else Except.ok ()

/-- Embedding of `validate_required_files` (src/read_data.py): check the
three secret tokens, then the repository list, the users list and the
channel, in that order, stopping at the first failure. -/
def validate_required_files (secrets : String → Option String) (cfg : ConfigFile) :
    Except ConfigError Unit :=
  match validate_token secrets "SLACK_BOT_TOKEN" with
  | Except.error e => Except.error e
  | Except.ok _ =>
    match validate_token secrets "SLACK_APP_TOKEN" with
    | Except.error e => Except.error e
    | Except.ok _ =>
      match validate_token secrets "GITHUB_TOKEN" with
      | Except.error e => Except.error e
      | Except.ok _ =>
        match validate_config_section cfg "repos" "config.yml does not contain any repositories." with
        | Except.error e => Except.error e
        | Except.ok _ =>
          match validate_config_section cfg "users" "Users parameter in config.yml is not set." with
          | Except.error e => Except.error e
          | Except.ok _ =>
            validate_config_section cfg "channel" "Channel parameter in config.yml is not set."

/-- The two startup actions `run_app` (src/main.py) performs after
validation: scheduling the reminder jobs and starting the socket handler
that serves the slash command.  Every reminder operation is reached only
through one of these. -/
inductive AppStep where
  | scheduleJobs
  | socketHandler
deriving Repr, DecidableEq

/-- Embedding of `run_app` (src/main.py): validate the required files first;
only when validation passes are the scheduler and the socket-mode handler
(which needs the SLACK_APP_TOKEN secret) started. -/
def run_app (secrets : String → Option String) (cfg : ConfigFile) :
    Except ConfigError (List AppStep) :=
  match validate_required_files secrets cfg with
  | Except.error e => Except.error e
  | Except.ok _ =>
    match get_token secrets "SLACK_APP_TOKEN" with
    | Except.error e => Except.error e
    | Except.ok _ => Except.ok [AppStep.scheduleJobs, AppStep.socketHandler]

/-- Recognizer for message-post calls in a chat trace. -/
def isPostCall : ChatCall → Bool
  | ChatCall.post _ _ _ _ => true
  | ChatCall.react _ _ _ => false

/-- The message-post calls of a chat trace, in order. -/
def onlyPosts (calls : List ChatCall) : List ChatCall :=
  calls.filter isPostCall

lemma add_reactions_calls (c : Client) (ts ch : String) (rs : List String) :
    (add_reactions c ts ch rs).1 = rs.map (fun r => ChatCall.react ch r ts) := by
  induction rs with
  | nil => rfl
  | cons r rest ih => simp [add_reactions, ih]

lemma onlyPosts_reacts (ch ts : String) (rs : List String) :
    onlyPosts (rs.map (fun r => ChatCall.react ch r ts)) = [] := by
  induction rs with
  | nil => rfl
  | cons r rest ih =>
    rw [List.map_cons]
    rw [show onlyPosts (ChatCall.react ch r ts :: rest.map (fun x => ChatCall.react ch x ts))
        = onlyPosts (rest.map (fun x => ChatCall.react ch x ts)) from by
      simp [onlyPosts, isPostCall]]
    exact ih

lemma onlyPosts_append (a b : List ChatCall) :
    onlyPosts (a ++ b) = onlyPosts a ++ onlyPosts b := by
  simp [onlyPosts, List.filter_append]

lemma send_message_ok_trace (c : Client) (text channel : String) (reactions : List String)
    (timestamp : Option String) (hok : (c.postMessage text channel timestamp).ok = true) :
    send_message c text channel reactions timestamp
      = (ChatCall.post text channel false timestamp
          :: (add_reactions c (c.postMessage text channel timestamp).ts
                (c.postMessage text channel timestamp).channel reactions).1,
         Except.ok (c.postMessage text channel timestamp)) := by
  simp [send_message, hok]

lemma send_messages_posts (c : Client) (channel ts : String)
    (hok : ∀ t th, (c.postMessage t channel th).ok = true) (msgs : List Message) :
    onlyPosts (send_messages c msgs channel ts).1
      = msgs.map (fun m => ChatCall.post m.text channel false (some ts)) := by
  induction msgs with
  | nil => rfl
  | cons m rest ih =>
    rw [send_messages, send_message_ok_trace c m.text channel m.reactions (some ts) (hok _ _)]
    simp only [onlyPosts_append, List.map_cons]
    rw [show onlyPosts (ChatCall.post m.text channel false (some ts)
        :: (add_reactions c (c.postMessage m.text channel (some ts)).ts
              (c.postMessage m.text channel (some ts)).channel m.reactions).1)
      = ChatCall.post m.text channel false (some ts)
        :: onlyPosts (add_reactions c (c.postMessage m.text channel (some ts)).ts
              (c.postMessage m.text channel (some ts)).channel m.reactions).1
      from by simp [onlyPosts, isPostCall]]
    rw [add_reactions_calls, onlyPosts_reacts, ih]
    simp

/-- A chat client whose calls all succeed. -/
def okClient : Client where
  postMessage := fun _ ch _ => ⟨true, "", "ts1", ch⟩
  reactionsAdd := fun _ _ _ => ⟨true, "", "", ""⟩
  profileRealName := fun _ => some "Mock Real Name"

/-- A chat client whose calls all fail with fixed upstream error strings. -/
def failClient : Client where
  postMessage := fun _ ch _ => ⟨false, "upstream_error", "ts1", ch⟩
  reactionsAdd := fun _ _ _ => ⟨false, "react_error", "", ""⟩
  profileRealName := fun _ => none

/-- A stale draft PR used as a concrete evaluation input. -/
def mockPR : PR :=
  ⟨"mock_title", "mock_author", "https://example.org/pr/1", true, true,
    ["mock_label"], "mock_repo", 100⟩

/-- A non-stale, non-draft PR used as a concrete evaluation input. -/
def freshPR : PR :=
  ⟨"fresh_title", "fresh_author", "https://example.org/pr/2", false, false,
    [], "mock_repo", 200⟩

/-- A populated configuration used as a concrete evaluation input. -/
def mockConfig : ConfigFile :=
  ⟨some [⟨"mock_author", "mock_slack"⟩], some ["org/repo1"], some "chan"⟩

/-- Claim C7: get_reactions returns the empty sequence for a PR that is
neither stale nor draft, and exactly ["alarm_clock", "building_construction"]
in that order (stale reaction before draft reaction) for a PR that is both
stale and draft. -/
theorem C7_get_reactions_cases (p q : PR) (hps : p.stale = false) (hpd : p.draft = false)
    (hqs : q.stale = true) (hqd : q.draft = true) :
    get_reactions p = [] ∧ get_reactions q = ["alarm_clock", "building_construction"] := by
  simp [get_reactions, hps, hpd, hqs, hqd]

/-- Witness for C7 at the concrete PRs `freshPR` and `mockPR`. -/
theorem C7_get_reactions_cases_witness :
    freshPR.stale = false ∧ freshPR.draft = false ∧ mockPR.stale = true ∧ mockPR.draft = true
      ∧ (get_reactions freshPR = []
          ∧ get_reactions mockPR = ["alarm_clock", "building_construction"]) :=
  ⟨rfl, rfl, rfl, rfl, C7_get_reactions_cases freshPR mockPR rfl rfl rfl rfl⟩

/-- Claim C6: for a stale PR the rendered text is exactly the staleness
preamble, the hyperlink line and the author line with the PR's own url,
title and resolved author substituted; when the user-map lookup or the chat
profile call fails, the author line falls back to the raw source-hosting
username. -/
theorem C6_make_string_stale (c : Client) (userMap : List (String × String)) (pr : PR)
    (hstale : pr.stale = true) :
    make_string c userMap pr
        = "*This PR is older than 30 days. Consider closing it:*\n"
          ++ "Pull Request: <" ++ pr.url ++ "|" ++ pr.title ++ ">\nAuthor: "
          ++ resolveAuthor c userMap pr.author
      ∧ ((∀ sid, lookupUser userMap pr.author = some sid → c.profileRealName sid = none) →
          resolveAuthor c userMap pr.author = pr.author) := by
  constructor
  · cases hl : lookupUser userMap pr.author with
    | none => simp [make_string, resolveAuthor, hstale, hl]
    | some sid =>
      cases hp : c.profileRealName sid with
      | none => simp [make_string, resolveAuthor, hstale, hl, hp]
      | some rn => simp [make_string, resolveAuthor, hstale, hl, hp]
  · intro hfail
    cases hl : lookupUser userMap pr.author with
    | none => simp [resolveAuthor, hl]
    | some sid => simp [resolveAuthor, hl, hfail sid hl]

/-- Witness for C6 at `mockPR` with a failing profile client: the author line
falls back to the raw username. -/
theorem C6_make_string_stale_witness :
    mockPR.stale = true
      ∧ (make_string failClient [("mock_author", "mock_slack")] mockPR
          = "*This PR is older than 30 days. Consider closing it:*\n"
            ++ "Pull Request: <" ++ mockPR.url ++ "|" ++ mockPR.title ++ ">\nAuthor: "
            ++ resolveAuthor failClient [("mock_author", "mock_slack")] mockPR.author
        ∧ ((∀ sid, lookupUser [("mock_author", "mock_slack")] mockPR.author = some sid →
              failClient.profileRealName sid = none) →
            resolveAuthor failClient [("mock_author", "mock_slack")] mockPR.author
              = mockPR.author)) :=
  ⟨rfl, C6_make_string_stale failClient [("mock_author", "mock_slack")] mockPR rfl⟩

/-- Claim C5: when one reaction-add call for a message fails (the chat API
answers ok false for it), the remaining reaction-add calls for that same
message are still attempted: the issued calls are exactly one per reaction,
in order, regardless of failures. -/
theorem C5_reaction_add_independent (c : Client) (timestamp channel : String)
    (reactions : List String) (r : String) (hr : r ∈ reactions)
    (hfail : (c.reactionsAdd channel r timestamp).ok = false) :
    (add_reactions c timestamp channel reactions).1
      = reactions.map (fun x => ChatCall.react channel x timestamp) :=
  add_reactions_calls c timestamp channel reactions

/-- Witness for C5: with a client whose reaction calls all fail, both
reaction calls are still issued. -/
theorem C5_reaction_add_independent_witness :
    "alarm_clock" ∈ ["alarm_clock", "building_construction"]
      ∧ (failClient.reactionsAdd "chan" "alarm_clock" "ts1").ok = false
      ∧ (add_reactions failClient "ts1" "chan" ["alarm_clock", "building_construction"]).1
        = ["alarm_clock", "building_construction"].map (fun x => ChatCall.react "chan" x "ts1") :=
  ⟨by simp, rfl,
    C5_reaction_add_independent failClient "ts1" "chan"
      ["alarm_clock", "building_construction"] "alarm_clock" (by simp) rfl⟩

/-- Claim C3: dispatching an empty PR list with the announce flag set issues
exactly one chat call, the post of "No Pull Requests were found." (so zero
reaction-add calls and nothing else); with the flag clear, no chat call is
issued at all. -/
theorem C3_run_empty (c : Client) (userMap : List (String × String)) (channel : String) :
    (PRReminder.run c userMap [] channel true).1
        = [ChatCall.post "No Pull Requests were found." channel false none]
      ∧ (PRReminder.run c userMap [] channel false).1 = [] := by
  constructor
  · cases h : (c.postMessage "No Pull Requests were found." channel none).ok <;>
      simp [PRReminder.run, send_message, add_reactions, h]
  · rfl

/-- Claim C10: get_config raises KeyError for any section other than
"users", "repos" and "channel"; "repos" and "channel" return the configured
raw value unchanged; "users" returns the configured entries mapped through
User.from_config. -/
theorem C10_get_config_sections (cfg : ConfigFile) (sect : String) (rs : List String)
    (ch : String) (us : List RawUserEntry)
    (h1 : sect ≠ "users") (h2 : sect ≠ "repos") (h3 : sect ≠ "channel")
    (hrs : cfg.repos = some rs) (hch : cfg.channel = some ch) (hus : cfg.users = some us) :
    get_config cfg sect
        = Except.error (ConfigError.keyError ("No section in config named " ++ sect ++ "."))
      ∧ get_config cfg "repos" = Except.ok (ConfigValue.repos rs)
      ∧ get_config cfg "channel" = Except.ok (ConfigValue.channel ch)
      ∧ get_config cfg "users" = Except.ok (ConfigValue.users (us.map User.from_config)) := by
  refine ⟨?_, ?_, ?_, ?_⟩
  · simp [get_config, h1, h2, h3]
  · simp [get_config, hrs]
  · simp [get_config, hch]
  · simp [get_config, hus]

/-- Witness for C10 at `mockConfig` and the unknown section name "bogus". -/
theorem C10_get_config_sections_witness :
    ("bogus" : String) ≠ "users" ∧ ("bogus" : String) ≠ "repos"
      ∧ ("bogus" : String) ≠ "channel"
      ∧ (get_config mockConfig "bogus"
            = Except.error (ConfigError.keyError ("No section in config named " ++ "bogus" ++ "."))
          ∧ get_config mockConfig "repos" = Except.ok (ConfigValue.repos ["org/repo1"])
          ∧ get_config mockConfig "channel" = Except.ok (ConfigValue.channel "chan")
          ∧ get_config mockConfig "users"
            = Except.ok (ConfigValue.users ([⟨"mock_author", "mock_slack"⟩].map User.from_config))) :=
  ⟨by decide, by decide, by decide,
    C10_get_config_sections mockConfig "bogus" ["org/repo1"] "chan"
      [⟨"mock_author", "mock_slack"⟩] (by decide) (by decide) (by decide) rfl rfl rfl⟩

/-- Claim C1: in global reminder mode the pull requests fetched from all
configured repositories are sorted by creation date ascending (oldest first)
before being passed to the dispatcher: the sorted list is pairwise
non-decreasing in created_at, is a permutation of the fetch result, and is
exactly the list `run_global_reminder` hands to `PRReminder.run`. -/
theorem C1_global_reminder_sorted (fetch : List String → List PR) (repos : List String)
    (c : Client) (userMap : List (String × String)) (channel : String) :
    List.Pairwise (fun a b : PR => a.created_at ≤ b.created_at)
        (global_reminder_prs fetch repos)
      ∧ (global_reminder_prs fetch repos).Perm (fetch repos)
      ∧ run_global_reminder fetch repos c userMap channel
        = PRReminder.run c userMap (global_reminder_prs fetch repos) channel true := by
  refine ⟨?_, ?_, rfl⟩
  · have hred : global_reminder_prs fetch repos
        = (fetch repos).mergeSort (fun a b => a.created_at ≤ b.created_at) := by
      simp [global_reminder_prs, FindPRs.sort_by]
    rw [hred]
    refine List.Pairwise.imp ?_
      (List.sorted_mergeSort ?_ ?_ (fetch repos))
    · intro a b hab
      simpa using hab
    · intro a b d hab hbd
      simp only [decide_eq_true_eq] at hab hbd ⊢
      omega
    · intro a b
      simp only [Bool.or_eq_true, decide_eq_true_eq]
      omega
  · have hred : global_reminder_prs fetch repos
        = (fetch repos).mergeSort (fun a b => a.created_at ≤ b.created_at) := by
      simp [global_reminder_prs, FindPRs.sort_by]
    rw [hred]
    exact List.mergeSort_perm (fetch repos) _

/-- Claim C8: the slash command with argument "mine" runs the personal
reminder for the invoking user (announcing an empty result), with "all" runs
the global reminder delivered to the invoker, with any other argument yields
only the usage message, and an invoking user that is not in the configured
user map gets only the identity-not-found message and no reminder runs. -/
theorem C8_slash_prs_dispatch (users : List User) (uidIn uidOut other : String)
    (hin : uidIn ∈ users.map (fun u => u.slack_id))
    (hout : uidOut ∉ users.map (fun u => u.slack_id))
    (hm : other ≠ "mine") (ha : other ≠ "all") :
    slash_prs users uidIn "mine"
        = [BotAction.respond "Gathering the PRs...",
           BotAction.personalReminder (users.filter (fun u => u.slack_id == uidIn)) true,
           BotAction.respond "Check out your DMs."]
      ∧ slash_prs users uidIn "all"
        = [BotAction.respond "Gathering the PRs...",
           BotAction.globalReminder uidIn,
           BotAction.respond "Check out your DMs."]
      ∧ slash_prs users uidIn other
        = [BotAction.respond "Please provide the correct argument: 'mine' or 'all'."]
      ∧ slash_prs users uidOut other
        = [BotAction.respond ("Could not find your Slack ID " ++ uidOut
            ++ " in the user map. Please contact the service maintainer to fix this.")]
      ∧ slash_prs users uidOut "mine"
        = [BotAction.respond ("Could not find your Slack ID " ++ uidOut
            ++ " in the user map. Please contact the service maintainer to fix this.")] := by
  refine ⟨?_, ?_, ?_, ?_, ?_⟩ <;> simp [slash_prs, hin, hout, hm, ha]

/-- Witness for C8 with one configured user, a known and an unknown invoker,
and the unrecognized argument "theirs". -/
theorem C8_slash_prs_dispatch_witness :
    "U1" ∈ [User.mk "gh1" "U1"].map (fun u => u.slack_id)
      ∧ "U2" ∉ [User.mk "gh1" "U1"].map (fun u => u.slack_id)
      ∧ ("theirs" : String) ≠ "mine" ∧ ("theirs" : String) ≠ "all"
      ∧ (slash_prs [User.mk "gh1" "U1"] "U1" "mine"
          = [BotAction.respond "Gathering the PRs...",
             BotAction.personalReminder
               ([User.mk "gh1" "U1"].filter (fun u => u.slack_id == "U1")) true,
             BotAction.respond "Check out your DMs."]
        ∧ slash_prs [User.mk "gh1" "U1"] "U1" "all"
          = [BotAction.respond "Gathering the PRs...",
             BotAction.globalReminder "U1",
             BotAction.respond "Check out your DMs."]
        ∧ slash_prs [User.mk "gh1" "U1"] "U1" "theirs"
          = [BotAction.respond "Please provide the correct argument: 'mine' or 'all'."]
        ∧ slash_prs [User.mk "gh1" "U1"] "U2" "theirs"
          = [BotAction.respond ("Could not find your Slack ID " ++ "U2"
              ++ " in the user map. Please contact the service maintainer to fix this.")]
        ∧ slash_prs [User.mk "gh1" "U1"] "U2" "mine"
          = [BotAction.respond ("Could not find your Slack ID " ++ "U2"
              ++ " in the user map. Please contact the service maintainer to fix this.")]) :=
  ⟨by simp, by simp, by decide, by decide,
    C8_slash_prs_dispatch [User.mk "gh1" "U1"] "U1" "U2" "theirs"
      (by simp) (by simp) (by decide) (by decide)⟩

/-- Claim C2: for a non-empty PR list (and a chat API that accepts the
posts), the dispatcher posts exactly one header message "Here are the
outstanding PRs as of today:" first, then one threaded reply per composed
(text, reactions) pair in composer order, each reply with unfurl_links false
and thread_ts equal to the timestamp returned by the header post. -/
theorem C2_run_header_then_replies (c : Client) (userMap : List (String × String))
    (prs : List PR) (channel : String) (hne : prs ≠ [])
    (hok : ∀ t th, (c.postMessage t channel th).ok = true) :
    onlyPosts (PRReminder.run c userMap prs channel true).1
      = ChatCall.post "Here are the outstanding PRs as of today:" channel false none
        :: (construct_messages c userMap prs).map
            (fun m => ChatCall.post m.text channel false
              (some (c.postMessage "Here are the outstanding PRs as of today:" channel none).ts)) := by
  cases prs with
  | nil => exact absurd rfl hne
  | cons p ps =>
    have hh := hok "Here are the outstanding PRs as of today:" none
    simp only [PRReminder.run, List.isEmpty_cons, Bool.false_eq_true, if_false,
      send_message_ok_trace c "Here are the outstanding PRs as of today:" channel [] none hh,
      add_reactions, onlyPosts_append]
    rw [send_messages_posts c channel _ hok]
    simp [onlyPosts, isPostCall]

/-- Witness for C2 at two concrete PRs and an always-succeeding client. -/
theorem C2_run_header_then_replies_witness :
    [mockPR, freshPR] ≠ []
      ∧ (∀ t th, (okClient.postMessage t "chan" th).ok = true)
      ∧ onlyPosts
          (PRReminder.run okClient [("mock_author", "mock_slack")] [mockPR, freshPR] "chan" true).1
        = ChatCall.post "Here are the outstanding PRs as of today:" "chan" false none
          :: (construct_messages okClient [("mock_author", "mock_slack")] [mockPR, freshPR]).map
              (fun m => ChatCall.post m.text "chan" false
                (some (okClient.postMessage
                  "Here are the outstanding PRs as of today:" "chan" none).ts)) :=
  ⟨by simp, fun t th => rfl,
    C2_run_header_then_replies okClient [("mock_author", "mock_slack")] [mockPR, freshPR]
      "chan" (by simp) (fun t th => rfl)⟩

/-- Claim C4: when the chat API answers ok false for a message post, the
dispatcher fails with an error carrying the upstream error string and posts
no further replies in that run: a failing threaded reply stops the reply
loop with only its own post issued, and a failing header stops the whole
run with only the header post issued. -/
theorem C4_post_failure_aborts (c : Client) (userMap : List (String × String)) (prs : List PR)
    (channel ts : String) (m : Message) (rest : List Message) (hne : prs ≠ [])
    (hfail : (c.postMessage m.text channel (some ts)).ok = false) :
    send_messages c (m :: rest) channel ts
        = ([ChatCall.post m.text channel false (some ts)],
           Except.error ("Message failed to send with error: "
             ++ (c.postMessage m.text channel (some ts)).error))
      ∧ ((c.postMessage "Here are the outstanding PRs as of today:" channel none).ok = false →
          PRReminder.run c userMap prs channel true
            = ([ChatCall.post "Here are the outstanding PRs as of today:" channel false none],
               Except.error ("Message failed to send with error: "
                 ++ (c.postMessage "Here are the outstanding PRs as of today:" channel none).error))) := by
  constructor
  · simp [send_messages, send_message, hfail]
  · intro hh
    cases prs with
    | nil => exact absurd rfl hne
    | cons p ps => simp [PRReminder.run, send_message, hh]

/-- Witness for C4 at a concrete failing client: the reply loop stops at the
failed post and the header failure stops the run, both carrying the
upstream error string. -/
theorem C4_post_failure_aborts_witness :
    [mockPR] ≠ []
      ∧ (failClient.postMessage "mock_text" "chan" (some "ts0")).ok = false
      ∧ (send_messages failClient [⟨"mock_text", []⟩] "chan" "ts0"
          = ([ChatCall.post "mock_text" "chan" false (some "ts0")],
             Except.error ("Message failed to send with error: "
               ++ (failClient.postMessage "mock_text" "chan" (some "ts0")).error))
        ∧ ((failClient.postMessage "Here are the outstanding PRs as of today:" "chan" none).ok
              = false →
            PRReminder.run failClient [] [mockPR] "chan" true
              = ([ChatCall.post "Here are the outstanding PRs as of today:" "chan" false none],
                 Except.error ("Message failed to send with error: "
                   ++ (failClient.postMessage
                        "Here are the outstanding PRs as of today:" "chan" none).error)))) :=
  ⟨by simp, rfl,
    C4_post_failure_aborts failClient [] [mockPR] "chan" "ts0" ⟨"mock_text", []⟩ []
      (by simp) rfl⟩

lemma validate_token_ok (secrets : String → Option String) (t : String)
    (h : validate_token secrets t = Except.ok ()) : (secrets t).getD "" ≠ "" := by
  unfold validate_token get_token at h
  cases hs : secrets t with
  | none => rw [hs] at h; simp at h
  | some v =>
    rw [hs] at h
    simp only [Option.getD_some]
    intro hv
    rw [hv] at h
    simp at h

lemma validate_section_repos_ok (cfg : ConfigFile) (msg : String)
    (h : validate_config_section cfg "repos" msg = Except.ok ()) : cfg.repos.getD [] ≠ [] := by
  unfold validate_config_section get_config at h
  simp only [reduceIte] at h
  cases hs : cfg.repos with
  | none => rw [hs] at h; simp at h
  | some rs =>
    rw [hs] at h
    simp only [ConfigValue.isFalsy, Option.getD_some] at h ⊢
    intro hrs
    rw [hrs] at h
    simp at h

lemma validate_section_users_ok (cfg : ConfigFile) (msg : String)
    (h : validate_config_section cfg "users" msg = Except.ok ()) : cfg.users.getD [] ≠ [] := by
  unfold validate_config_section get_config at h
  simp only [reduceIte] at h
  cases hs : cfg.users with
  | none => rw [hs] at h; simp at h
  | some us =>
    rw [hs] at h
    simp only [ConfigValue.isFalsy, Option.getD_some] at h ⊢
    intro hus
    rw [hus] at h
    simp at h

lemma validate_section_channel_ok (cfg : ConfigFile) (msg : String)
    (h : validate_config_section cfg "channel" msg = Except.ok ()) : cfg.channel.getD "" ≠ "" := by
  unfold validate_config_section get_config at h
  simp only [reduceIte] at h
  cases hs : cfg.channel with
  | none => rw [hs] at h; simp at h
  | some ch =>
    rw [hs] at h
    simp only [ConfigValue.isFalsy, Option.getD_some] at h ⊢
    intro hch
    rw [hch] at h
    simp at h

lemma validate_ok_parts (secrets : String → Option String) (cfg : ConfigFile)
    (h : validate_required_files secrets cfg = Except.ok ()) :
    validate_token secrets "SLACK_BOT_TOKEN" = Except.ok ()
      ∧ validate_token secrets "SLACK_APP_TOKEN" = Except.ok ()
      ∧ validate_token secrets "GITHUB_TOKEN" = Except.ok ()
      ∧ validate_config_section cfg "repos" "config.yml does not contain any repositories."
          = Except.ok ()
      ∧ validate_config_section cfg "users" "Users parameter in config.yml is not set."
          = Except.ok ()
      ∧ validate_config_section cfg "channel" "Channel parameter in config.yml is not set."
          = Except.ok () := by
  unfold validate_required_files at h
  split at h
  · simp at h
  next u1 heq1 =>
    split at h
    · simp at h
    next u2 heq2 =>
      split at h
      · simp at h
      next u3 heq3 =>
        split at h
        · simp at h
        next u4 heq4 =>
          split at h
          · simp at h
          next u5 heq5 =>
            cases u1; cases u2; cases u3; cases u4; cases u5
            exact ⟨heq1, heq2, heq3, heq4, heq5, h⟩

/-- Claim C9: application startup fails (run_app returns an error from
validate_required_files, never reaching the scheduler or the socket handler
and hence no reminder operation) whenever a required configuration value is
missing or empty: any of the three secret tokens, the repository list, the
users list, or the channel. -/
theorem C9_startup_validation (secrets : String → Option String) (cfg : ConfigFile)
    (hbad : (secrets "SLACK_BOT_TOKEN").getD "" = ""
      ∨ (secrets "SLACK_APP_TOKEN").getD "" = ""
      ∨ (secrets "GITHUB_TOKEN").getD "" = ""
      ∨ cfg.repos.getD [] = []
      ∨ cfg.users.getD [] = []
      ∨ cfg.channel.getD "" = "") :
    ∃ e, run_app secrets cfg = Except.error e := by
  cases hv : validate_required_files secrets cfg with
  | error e => exact ⟨e, by simp [run_app, hv]⟩
  | ok u =>
    cases u
    obtain ⟨h1, h2, h3, h4, h5, h6⟩ := validate_ok_parts secrets cfg hv
    rcases hbad with hb | hb | hb | hb | hb | hb
    · exact absurd hb (validate_token_ok secrets "SLACK_BOT_TOKEN" h1)
    · exact absurd hb (validate_token_ok secrets "SLACK_APP_TOKEN" h2)
    · exact absurd hb (validate_token_ok secrets "GITHUB_TOKEN" h3)
    · exact absurd hb (validate_section_repos_ok cfg _ h4)
    · exact absurd hb (validate_section_users_ok cfg _ h5)
    · exact absurd hb (validate_section_channel_ok cfg _ h6)

/-- Witness for C9 at a concrete configuration with an empty repository
list: startup fails. -/
theorem C9_startup_validation_witness :
    ((ConfigFile.mk (some [⟨"mock_author", "mock_slack"⟩]) (some []) (some "chan")).repos.getD []
        = [])
      ∧ ∃ e, run_app (fun _ => some "tok")
          (ConfigFile.mk (some [⟨"mock_author", "mock_slack"⟩]) (some []) (some "chan"))
          = Except.error e :=
  ⟨rfl,
    C9_startup_validation (fun _ => some "tok")
      (ConfigFile.mk (some [⟨"mock_author", "mock_slack"⟩]) (some []) (some "chan"))
      (Or.inr (Or.inr (Or.inr (Or.inl rfl))))⟩
